import Mathlib

/-!
# Verification of the zencefil template engine

A shallow embedding, in Lean 4, of the core of the zencefil template
engine (lexer, parser, renderer), translated from the Go sources:

* `src/lexer/lexer.go` — byte-level two-mode tokenizer,
* `src/parser/parser.go` — recursive-descent parser (the revision present
  under `src/`),
* `src/unnamed/part_002` — the renderer (`package renderer`): tree walk,
  two-stack expression evaluator, for-loop context shadowing.

Go's `map[string]interface{}` context is modelled as an association list
(`Ctx`).  Go's dynamic `interface{}` values are modelled by the closed
`Value` universe below; the `float64` arm of the Go code is omitted (no
claim in this development touches floating-point values), and Go `int` is
modelled as `Int` (the Go code compares ints by converting them to
`float64`, which agrees with integer comparison for all values whose
magnitude is below 2^53 — every value appearing in this development).

Error values mirror Go: `*RenderError` displays as `"render error: " ++ msg`,
plain `fmt.Errorf` errors display as their message.  Go slice stacks are
modelled as Lean lists whose *head* is the top of the stack (the Go code
appends to and pops from the end of the slice).

Runtime panics of the Go code (out-of-range indexing, nil dereference)
are modelled as distinct error values marked `"runtime panic: ..."`; no
theorem below depends on them.
-/

set_option linter.unreachableTactic false
set_option linter.unusedTactic false

namespace Zencefil

/-- Dynamic runtime value, modelling Go's `interface{}` as used by the
renderer (`nil`, `bool`, `int`, `string`, `[]interface{}`,
`map[string]interface{}`; the `float64` arm is omitted, see the header). -/
inductive Value : Type where
  | null : Value
  | bool : Bool → Value
  | int : Int → Value
  | str : String → Value
  | list : List Value → Value
  | map : List (String × Value) → Value
deriving Repr

/-- The rendering context: Go's `map[string]interface{}`, modelled as an
association list.  Lookup reads the first matching key, so the model
coincides with Go map semantics whenever keys are unique. -/
abbrev Ctx : Type := List (String × Value)

/-- Go map read `ctx[key]` (with the `, ok` form). -/
def ctxLookup : Ctx → String → Option Value
  | [], _ => none
  | (k, v) :: rest, key => if k = key then some v else ctxLookup rest key

/-- Go map write `ctx[key] = v`: replaces the first binding of `key`,
or appends a new binding. -/
def ctxSet : Ctx → String → Value → Ctx
  | [], key, v => [(key, v)]
  | (k, w) :: rest, key, v =>
    if k = key then (k, v) :: rest else (k, w) :: ctxSet rest key v

/-- Go map delete `delete(ctx, key)`: removes the first binding of `key`
(the only one, under Go map semantics). -/
def ctxErase : Ctx → String → Ctx
  | [], _ => []
  | (k, w) :: rest, key =>
    if k = key then rest else (k, w) :: ctxErase rest key

/-- AST node kinds, from `src/parser/parser.go` (`NodeType`).  The two
constructors `OP_BANG` and `OP_NULL_COALESCE` are referenced by the
renderer in `src/unnamed/part_002` (`operatorStringMap`,
`evaluateExpression`); they are declared by the parser revision at the
repository head, which is not included under `src/`, so they are added
here to make the renderer translation well-formed. -/
inductive NodeType : Type where
  | TEXT_NODE
  | VARIABLE_NODE
  | EXPRESSION_NODE
  | OP_EQUALS
  | OP_NOT_EQUALS
  | OP_AND
  | OP_OR
  | OP_LT
  | OP_GT
  | OP_LTE
  | OP_GTE
  | STRING_LITERAL_NODE
  | NUMBER_LITERAL_NODE
  | IF_NODE
  | THEN_BRANCH
  | ELIF_BRANCH
  | ELIF_ITEM
  | ELSE_BRANCH
  | FOR_NODE
  | ITERATOR_ITEM
  | ITERATEE_ITEM
  | FOR_BODY
  | OP_BANG
  | OP_NULL_COALESCE
deriving DecidableEq, Repr

open NodeType

/-- Display name of a node kind (Go `NodeType.String()`). -/
def nodeTypeName : NodeType → String
  | TEXT_NODE => "TEXT_NODE"
  | VARIABLE_NODE => "VARIABLE_NODE"
  | EXPRESSION_NODE => "EXPRESSION_NODE"
  | OP_EQUALS => "OP_EQUALS"
  | OP_NOT_EQUALS => "OP_NOT_EQUALS"
  | OP_AND => "OP_AND"
  | OP_OR => "OP_OR"
  | OP_LT => "OP_LT"
  | OP_GT => "OP_GT"
  | OP_LTE => "OP_LTE"
  | OP_GTE => "OP_GTE"
  | STRING_LITERAL_NODE => "STRING_LITERAL_NODE"
  | NUMBER_LITERAL_NODE => "NUMBER_LITERAL_NODE"
  | IF_NODE => "IF_NODE"
  | THEN_BRANCH => "THEN_BRANCH"
  | ELIF_BRANCH => "ELIF_BRANCH"
  | ELIF_ITEM => "ELIF_ITEM"
  | ELSE_BRANCH => "ELSE_BRANCH"
  | FOR_NODE => "FOR_NODE"
  | ITERATOR_ITEM => "ITERATOR_ITEM"
  | ITERATEE_ITEM => "ITERATEE_ITEM"
  | FOR_BODY => "FOR_BODY"
  | OP_BANG => "OP_BANG"
  | OP_NULL_COALESCE => "OP_NULL_COALESCE"

/-- AST node, from `src/parser/parser.go` (`type Node struct`): a kind,
an optional string payload (`Value *string`) and a list of children. -/
inductive Node : Type where
  | mk : NodeType → Option String → List Node → Node
deriving Repr

/-- The node's kind (`node.Type`). -/
def Node.type : Node → NodeType
  | .mk t _ _ => t

/-- The node's optional payload (`node.Value`). -/
def Node.value : Node → Option String
  | .mk _ v _ => v

/-- The node's children (`node.Children`). -/
def Node.children : Node → List Node
  | .mk _ _ c => c

/-- Errors produced by the renderer.  `renderError m` models a
`*RenderError` with message `m`; `plain m` models a `fmt.Errorf` error. -/
inductive GoError : Type where
  | renderError : String → GoError
  | plain : String → GoError
deriving DecidableEq, Repr

/-- `%v` display of an error (`RenderError.Error()` prefixes
`"render error: "`; plain errors display their message). -/
def GoError.display : GoError → String
  | .renderError m => "render error: " ++ m
  | .plain m => m

/-- Go type name of a value as printed by `%T`
(used by `renderForNode`'s "iterator must be a slice" message). -/
def goTypeName : Value → String
  | .null => "<nil>"
  | .bool _ => "bool"
  | .int _ => "int"
  | .str _ => "string"
  | .list _ => "[]interface \x7b\x7d"
  | .map _ => "map[string]interface \x7b\x7d"

mutual

/-- `%v` display of a value, from Go's `fmt` formatting as used in
`renderNode` (`fmt.Sprintf("%v", variable)`): strings verbatim, booleans
`true`/`false`, integers in decimal, `nil` as `<nil>`, slices
space-separated in brackets, maps in `map[k:v ...]` form with keys in
sorted order. -/
def displayValue : Value → String
  | .null => "<nil>"
  | .bool b => if b then "true" else "false"
  | .int n => toString n
  | .str s => s
  | .list xs => "[" ++ String.intercalate " " (displayValueList xs) ++ "]"
  | .map m =>
    "map[" ++ String.intercalate " " ((displayEntryList m).mergeSort (· ≤ ·)) ++ "]"

/-- Displays of the elements of a slice (helper of `displayValue`). -/
def displayValueList : List Value → List String
  | [] => []
  | v :: rest => displayValue v :: displayValueList rest

/-- `k:v` displays of the entries of a map (helper of `displayValue`). -/
def displayEntryList : List (String × Value) → List String
  | [] => []
  | (k, v) :: rest => (k ++ ":" ++ displayValue v) :: displayEntryList rest

end

/-- Truthiness, from `isTruthy` in `src/unnamed/part_002`: `nil` is falsy,
booleans are themselves, strings are falsy iff empty, numbers are falsy
iff zero, slices and maps are falsy iff empty. -/
def isTruthy : Value → Bool
  | .null => false
  | .bool v => v
  | .str v => v ≠ ""
  | .int v => v ≠ 0
  | .list v => v.length > 0
  | .map v => v.length > 0

/-- Three-way comparison, from `compareValues` in `src/unnamed/part_002`:
strings compare lexicographically; numbers numerically; booleans with
`false < true`; anything else falls back to comparing `%v` displays. -/
def compareValues (a b : Value) : Int :=
  match a, b with
  | .str aStr, .str bStr =>
    if aStr = bStr then 0 else if aStr < bStr then -1 else 1
  | .int aInt, .int bInt =>
    if aInt < bInt then -1 else if aInt > bInt then 1 else 0
  | .bool aBool, .bool bBool =>
    if aBool = bBool then 0 else if aBool then 1 else -1
  | x, y =>
    let xs := displayValue x
    let ys := displayValue y
    if xs = ys then 0 else if xs < ys then -1 else 1

/-- Operator precedence, from the map literal in `hasHigherPrecedence`
(`src/unnamed/part_002`); a Go map read of an absent key yields the zero
value, hence the default arm. -/
def precedence : NodeType → Nat
  | OP_BANG => 5
  | OP_EQUALS => 4
  | OP_NOT_EQUALS => 4
  | OP_GT => 4
  | OP_LT => 4
  | OP_GTE => 4
  | OP_LTE => 4
  | OP_AND => 2
  | OP_OR => 1
  | _ => 0

/-- `hasHigherPrecedence` from `src/unnamed/part_002`. -/
def hasHigherPrecedence (op1 op2 : NodeType) : Bool :=
  precedence op1 > precedence op2

/-- `applyPendingBang` from `src/unnamed/part_002`: if the operator
stack's top is `OP_BANG`, pop it and negate the truthiness of the operand
stack's top.  (At every Go call site the operand stack is non-empty; the
empty case below is unreachable there.) -/
def applyPendingBang :
    List Value → List NodeType → List Value × List NodeType
  | operands, OP_BANG :: ops =>
    match operands with
    | v :: rest => ((Value.bool (!isTruthy v)) :: rest, ops)
    | [] => ([], ops)
  | operands, ops => (operands, ops)

/-- `evaluateTopOperator` from `src/unnamed/part_002`: pop one operator
and apply it to the top of the operand stack.  `OP_AND`/`OP_OR` select one
of the two operands; comparisons go through `compareValues`; any other
operator (in particular `OP_NULL_COALESCE`) is unsupported. -/
def evaluateTopOperator (operands : List Value) (operators : List NodeType) :
    Except GoError (List Value × List NodeType) :=
  match operators with
  | [] => .error (.plain "invalid expression: no operator")
  | op :: ops =>
    if op = OP_BANG then
      match operands with
      | [] => .error (.plain "invalid expression: not enough operands for NOT operator")
      | v :: rest => .ok ((Value.bool (!isTruthy v)) :: rest, ops)
    else
      match operands with
      | right :: left :: rest =>
        match op with
        | OP_AND =>
          -- If left is falsy, return left, otherwise return right
          .ok ((if isTruthy left then right else left) :: rest, ops)
        | OP_OR =>
          -- If left is truthy, return left, otherwise return right
          .ok ((if isTruthy left then left else right) :: rest, ops)
        | OP_EQUALS => .ok ((Value.bool (compareValues left right == 0)) :: rest, ops)
        | OP_NOT_EQUALS => .ok ((Value.bool (compareValues left right != 0)) :: rest, ops)
        | OP_GT => .ok ((Value.bool (compareValues left right > 0)) :: rest, ops)
        | OP_LT => .ok ((Value.bool (compareValues left right < 0)) :: rest, ops)
        | OP_GTE => .ok ((Value.bool (compareValues left right ≥ 0)) :: rest, ops)
        | OP_LTE => .ok ((Value.bool (compareValues left right ≤ 0)) :: rest, ops)
        | _ => .error (.plain ("unsupported operator: " ++ nodeTypeName op))
      | _ => .error (.plain "invalid expression: not enough operands")

/-- The pop-while loop in `evaluateExpression`'s binary-operator case:
while the operator stack is non-empty and its top has strictly higher
precedence than the incoming operator, pop and apply it.
(`evaluateTopOperator` always pops exactly the top operator on success,
so the recursive call continues on `rest`.) -/
def drainWhile (incoming : NodeType) (operands : List Value) :
    List NodeType → Except GoError (List Value × List NodeType)
  | [] => .ok (operands, [])
  | top :: rest =>
    if hasHigherPrecedence top incoming then
      match evaluateTopOperator operands (top :: rest) with
      | .error e => .error e
      | .ok (operands', _) => drainWhile incoming operands' rest
    else
      .ok (operands, top :: rest)

/-- The final drain loop of `evaluateExpression`: apply all remaining
operators. -/
def drainAll (operands : List Value) :
    List NodeType → Except GoError (List Value)
  | [] => .ok operands
  | top :: rest =>
    match evaluateTopOperator operands (top :: rest) with
    | .error e => .error e
    | .ok (operands', _) => drainAll operands' rest

/-- `variableLookup` from `src/unnamed/part_002`. -/
def variableLookup (ctx : Ctx) (key : String) : Option Value :=
  ctxLookup ctx key

/-- Number-literal parsing: the Go code calls `strconv.ParseFloat`.
Modelled for decimal-integer lexemes (the only number shape this
development evaluates); fractional values lie outside the `Value`
universe, see the header. -/
def parseNumberLit (s : String) : Option Int :=
  s.toInt?

mutual

/-- Structural weight of a node: `3` for the node itself (so a node
always outweighs its child list by at least two) plus the weight of its
children.  Used as the (always sufficient) evaluation fuel of
`evaluateExpression`. -/
def Node.weight : Node → Nat
  | .mk _ _ cs => 3 + Node.weightList cs

/-- Structural weight of a node list: `1` for nil, `1 + Node.weight v`
per cons cell. -/
def Node.weightList : List Node → Nat
  | [] => 1
  | v :: rest => 1 + Node.weight v + Node.weightList rest

end

mutual

/-- The child-scanning loop of `evaluateExpression`
(`src/unnamed/part_002`, `for i := 0; i < len(node.Children); i++`),
threading the operand and operator stacks.  Operands are pushed (with a
pending-bang check); `OP_BANG` is pushed on the operator stack; binary
operators first drain strictly-higher-precedence operators; any other
node kind (in particular `OP_NULL_COALESCE`) matches no case of the Go
`switch` and is skipped.

The mutual recursion is by structural descent on an explicit `fuel`
argument so the definitions reduce in the kernel; the fuel-exhausted
branch is unreachable at the entry point (see `evaluateExpression`): the
recursion depth of a run is at most `Node.weightList nodes` here and at
most `Node.weight node` in `evaluateExpressionFuel`, since every `cons`
cell contributes `1 + Node.weight v` to `Node.weightList nodes` and
every node contributes `3 + Node.weightList v.children` to
`Node.weight v`. -/
def evalChildren (ctx : Ctx) :
    Nat → List Node → List Value → List NodeType →
    Except GoError (List Value × List NodeType)
  | 0, _, _, _ => .error (.plain "evaluation fuel exhausted")
  | _ + 1, [], operands, operators => .ok (operands, operators)
  | fuel + 1, v :: rest, operands, operators =>
    match v.type with
    | VARIABLE_NODE =>
      match v.value with
      | none => .error (.plain "variable node has nil value")
      | some name =>
        match variableLookup ctx name with
        | none =>
          .error (.renderError ("variable \x27" ++ name ++ "\x27 not found in context"))
        | some value =>
          let (operands', operators') := applyPendingBang (value :: operands) operators
          evalChildren ctx fuel rest operands' operators'
    | EXPRESSION_NODE =>
      match evaluateExpressionFuel ctx fuel v with
      | .error e =>
        .error (.plain ("failed to evaluate nested expression: " ++ e.display))
      | .ok value =>
        let (operands', operators') := applyPendingBang (value :: operands) operators
        evalChildren ctx fuel rest operands' operators'
    | STRING_LITERAL_NODE =>
      match v.value with
      | none => .error (.plain "runtime panic: nil string literal dereference")
      | some s =>
        let (operands', operators') := applyPendingBang ((Value.str s) :: operands) operators
        evalChildren ctx fuel rest operands' operators'
    | NUMBER_LITERAL_NODE =>
      match v.value with
      | none => .error (.plain "runtime panic: nil number literal dereference")
      | some s =>
        match parseNumberLit s with
        | some num =>
          let (operands', operators') := applyPendingBang ((Value.int num) :: operands) operators
          evalChildren ctx fuel rest operands' operators'
        | none => .error (.plain ("invalid number literal: " ++ s))
    | OP_BANG => evalChildren ctx fuel rest operands (OP_BANG :: operators)
    | OP_AND | OP_OR | OP_EQUALS | OP_NOT_EQUALS | OP_GT | OP_LT | OP_GTE | OP_LTE =>
      match drainWhile v.type operands operators with
      | .error e => .error e
      | .ok (operands', operators') =>
        evalChildren ctx fuel rest operands' (v.type :: operators')
    | _ => evalChildren ctx fuel rest operands operators

/-- Fueled body of `evaluateExpression` from `src/unnamed/part_002`: run
the two-stack machine over the node's children, drain remaining
operators, and require exactly one value to remain.  See `evalChildren`
for the fuel discipline and `evaluateExpression` for the (always
sufficient) entry fuel. -/
def evaluateExpressionFuel (ctx : Ctx) : Nat → Node → Except GoError Value
  | 0, _ => .error (.plain "evaluation fuel exhausted")
  | fuel + 1, node =>
    match evalChildren ctx fuel node.children [] [] with
    | .error e => .error e
    | .ok (operands, operators) =>
      match drainAll operands operators with
      | .error e => .error e
      | .ok finalOperands =>
        match finalOperands with
        | [v] => .ok v
        | other =>
          .error (.plain ("invalid expression: expected 1 final result, got "
            ++ toString other.length))

end

/-- `evaluateExpression` from `src/unnamed/part_002`, entered with
`Node.weight node` fuel.  This fuel always suffices, so the model never
takes the fuel-exhausted branch: by induction, a run of
`evaluateExpressionFuel` on `node` recurses to depth at most
`1 + Node.weightList node.children ≤ Node.weight node - 2`, since along
a child list each `cons` costs one fuel unit and contributes
`1 + Node.weight v`, and each descent into a nested `EXPRESSION_NODE`
child `v` costs one fuel unit and contributes
`Node.weight v = 3 + Node.weightList v.children`. -/
def evaluateExpression (ctx : Ctx) (node : Node) : Except GoError Value :=
  evaluateExpressionFuel ctx (Node.weight node) node

/-- `evaluateCondition` from `src/unnamed/part_002`: a bare-variable
condition must resolve to a boolean; a missing variable or a non-boolean
value is an error. -/
def evaluateCondition (ctx : Ctx) (key : String) : Except GoError Bool :=
  match variableLookup ctx key with
  | none =>
    .error (.renderError ("condition variable \x27" ++ key ++ "\x27 not found in context"))
  | some value =>
    match value with
    | .bool b => .ok b
    | _ =>
      .error (.renderError ("condition variable \x27" ++ key ++ "\x27 is not a boolean"))

/-- The extraction pass of `renderForNode` (`src/unnamed/part_002`, first
`for` loop): scan the For node's children for `ITERATEE_ITEM` (the loop
variable name) and `ITERATOR_ITEM` (looked up in the context; must be a
slice). -/
def forExtract (ctx : Ctx) :
    List Node → String → List Value → Except GoError (String × List Value)
  | [], iteratee, iterator => .ok (iteratee, iterator)
  | n :: rest, iteratee, iterator =>
    match n.type with
    | ITERATEE_ITEM =>
      match n.value with
      | none => .error (.renderError "iteratee item has nil value")
      | some s => forExtract ctx rest s iterator
    | ITERATOR_ITEM =>
      match n.value with
      | none => .error (.renderError "iterator item has nil value")
      | some s =>
        match variableLookup ctx s with
        | none =>
          .error (.renderError ("iterator variable \x27" ++ s ++ "\x27 not found in context"))
        | some v =>
          match v with
          | .list xs => forExtract ctx rest iteratee xs
          | other =>
            .error (.renderError ("iterator must be a slice, got " ++ goTypeName other))
    | _ => forExtract ctx rest iteratee iterator

/-- Lemma: a node's children are smaller than the node (for termination
of the render functions below). -/
theorem Node.sizeOf_children_lt (n : Node) : sizeOf n.children < sizeOf n := by
  cases n with
  | mk t val cs =>
    simp [Node.children]
    try omega

/-- Variant of `Node.sizeOf_children_lt` against a cons cell. -/
theorem Node.sizeOf_children_lt_cons (n : Node) (l : List Node) :
    sizeOf n.children < 1 + sizeOf n + sizeOf l := by
  have h := Node.sizeOf_children_lt n
  omega

mutual

/-- `renderNodes` from `src/unnamed/part_002`: render a node list,
concatenating results, stopping at the first error.  The context is
threaded through explicitly (it is a shared mutable map in Go), and is
returned also on the error path, because the Go caller keeps the map. -/
def renderNodes (ctx : Ctx) (nodes : List Node) :
    (Except GoError String) × Ctx :=
  match nodes with
  | [] => (.ok "", ctx)
  | n :: rest =>
    match renderNode ctx n with
    | (.error e, ctx') => (.error e, ctx')
    | (.ok s, ctx') =>
      match renderNodes ctx' rest with
      | (.error e, ctx'') => (.error e, ctx'')
      | (.ok s', ctx'') => (.ok (s ++ s'), ctx'')
termination_by (sizeOf nodes, 0)
decreasing_by
  all_goals simp_wf
  all_goals
    first
      | exact Prod.Lex.right _ (by omega)
      | exact Prod.Lex.right _ (by simp only [List.length_cons]; omega)
      | exact Prod.Lex.left _ _ (Node.sizeOf_children_lt _)
      | exact Prod.Lex.left _ _ (Node.sizeOf_children_lt_cons _ _)
      | exact Prod.Lex.left _ _ (by
          simp only [Node.mk.sizeOf_spec, List.cons.sizeOf_spec]
          omega)
      | exact Prod.Lex.left _ _ (by omega)

/-- `renderNode` from `src/unnamed/part_002`: dispatch on the node kind. -/
def renderNode (ctx : Ctx) (n : Node) : (Except GoError String) × Ctx :=
  match n.type with
  | TEXT_NODE =>
    match n.value with
    | none => (.error (.renderError "text node has nil value"), ctx)
    | some s => (.ok s, ctx)
  | VARIABLE_NODE =>
    match n.value with
    | none => (.error (.renderError "variable node has nil value"), ctx)
    | some name =>
      match variableLookup ctx name with
      | none =>
        (.error (.renderError ("variable \x27" ++ name ++ "\x27 not found in context")), ctx)
      | some v => (.ok (displayValue v), ctx)
  | EXPRESSION_NODE =>
    match evaluateExpression ctx n with
    | .error e => (.error e, ctx)
    | .ok v => (.ok (displayValue v), ctx)
  | IF_NODE => renderIfNode ctx n
  | FOR_NODE => renderForNode ctx n
  | t => (.error (.renderError ("unknown node type: " ++ nodeTypeName t)), ctx)
termination_by (sizeOf n, 3)
decreasing_by
  all_goals simp_wf
  all_goals
    first
      | exact Prod.Lex.right _ (by omega)
      | exact Prod.Lex.right _ (by simp only [List.length_cons]; omega)
      | exact Prod.Lex.left _ _ (Node.sizeOf_children_lt _)
      | exact Prod.Lex.left _ _ (Node.sizeOf_children_lt_cons _ _)
      | exact Prod.Lex.left _ _ (by
          simp only [Node.mk.sizeOf_spec, List.cons.sizeOf_spec]
          omega)
      | exact Prod.Lex.left _ _ (by omega)

/-- `renderIfNode` from `src/unnamed/part_002`: the condition is the
first child; a bare `VARIABLE_NODE` condition goes through
`evaluateCondition` (typed boolean check), an `EXPRESSION_NODE` condition
through `evaluateExpression` and truthiness; on a false condition, fall
through to the elif branches and then the else branch. -/
def renderIfNode (ctx : Ctx) (n : Node) : (Except GoError String) × Ctx :=
  match n.children with
  | [] => (.error (.plain "runtime panic: index out of range in renderIfNode"), ctx)
  | conditionNode :: _ =>
    if conditionNode.type = VARIABLE_NODE then
      match conditionNode.value with
      | none => (.error (.plain "runtime panic: nil if condition dereference"), ctx)
      | some key =>
        match evaluateCondition ctx key with
        | .error e => (.error e, ctx)
        | .ok condition =>
          if condition then renderConditionalBranch ctx n.children THEN_BRANCH
          else renderIfFallthrough ctx n
    else if conditionNode.type = EXPRESSION_NODE then
      match evaluateExpression ctx conditionNode with
      | .error e => (.error e, ctx)
      | .ok v =>
        if isTruthy v then renderConditionalBranch ctx n.children THEN_BRANCH
        else renderIfFallthrough ctx n
    else (.error (.renderError "if node has nil condition"), ctx)
termination_by (sizeOf n, 2)
decreasing_by
  all_goals simp_wf
  all_goals
    first
      | exact Prod.Lex.right _ (by omega)
      | exact Prod.Lex.right _ (by simp only [List.length_cons]; omega)
      | exact Prod.Lex.left _ _ (Node.sizeOf_children_lt _)
      | exact Prod.Lex.left _ _ (Node.sizeOf_children_lt_cons _ _)
      | exact Prod.Lex.left _ _ (by
          simp only [Node.mk.sizeOf_spec, List.cons.sizeOf_spec]
          omega)
      | exact Prod.Lex.left _ _ (by omega)

/-- The tail of `renderIfNode` after a falsy condition: try the elif
branches; the else branch is rendered whenever the elif result is the
empty string (the Go code tests `elifResult != ""`, not whether some
elif condition matched). -/
def renderIfFallthrough (ctx : Ctx) (n : Node) : (Except GoError String) × Ctx :=
  match renderElifBranches ctx n.children with
  | (.error e, ctx') => (.error e, ctx')
  | (.ok elifResult, ctx') =>
    if elifResult ≠ "" then (.ok elifResult, ctx')
    else renderConditionalBranch ctx' n.children ELSE_BRANCH
termination_by (sizeOf n, 1)
decreasing_by
  all_goals simp_wf
  all_goals
    first
      | exact Prod.Lex.right _ (by omega)
      | exact Prod.Lex.right _ (by simp only [List.length_cons]; omega)
      | exact Prod.Lex.left _ _ (Node.sizeOf_children_lt _)
      | exact Prod.Lex.left _ _ (Node.sizeOf_children_lt_cons _ _)
      | exact Prod.Lex.left _ _ (by
          simp only [Node.mk.sizeOf_spec, List.cons.sizeOf_spec]
          omega)
      | exact Prod.Lex.left _ _ (by omega)

/-- `renderElifBranches` from `src/unnamed/part_002` (outer loop over the
If node's children, skipping non-`ELIF_BRANCH` nodes). -/
def renderElifBranches (ctx : Ctx) (nodes : List Node) :
    (Except GoError String) × Ctx :=
  match nodes with
  | [] => (.ok "", ctx)
  | node :: rest =>
    if node.type = ELIF_BRANCH then
      match renderElifItems ctx node.children with
      | (.error e, ctx') => (.error e, ctx')
      | (.ok (some s), ctx') => (.ok s, ctx')
      | (.ok none, ctx') => renderElifBranches ctx' rest
    else renderElifBranches ctx rest
termination_by (sizeOf nodes, 1)
decreasing_by
  all_goals simp_wf
  all_goals
    first
      | exact Prod.Lex.right _ (by omega)
      | exact Prod.Lex.right _ (by simp only [List.length_cons]; omega)
      | exact Prod.Lex.left _ _ (Node.sizeOf_children_lt _)
      | exact Prod.Lex.left _ _ (Node.sizeOf_children_lt_cons _ _)
      | exact Prod.Lex.left _ _ (by
          simp only [Node.mk.sizeOf_spec, List.cons.sizeOf_spec]
          omega)
      | exact Prod.Lex.left _ _ (by omega)

/-- The inner loop of `renderElifBranches`: each `ELIF_ITEM`'s first
child is its condition, the remaining children its body; render the body
of the first item whose condition holds (`some body-result`), or report
`none` if no condition held. -/
def renderElifItems (ctx : Ctx) (items : List Node) :
    (Except GoError (Option String)) × Ctx :=
  match items with
  | [] => (.ok none, ctx)
  | elifNode :: rest =>
    -- `elifNode.Children[0]` is the condition; the Go code then drops it
    -- from the children before rendering the body.
    match elifNode with
    | .mk _ _ [] =>
      (.error (.plain "runtime panic: index out of range in renderElifBranches"), ctx)
    | .mk _ _ (conditionNode :: body) =>
      if conditionNode.type = VARIABLE_NODE then
        match conditionNode.value with
        | none => (.error (.plain "runtime panic: nil elif condition dereference"), ctx)
        | some key =>
          match evaluateCondition ctx key with
          | .error e => (.error e, ctx)
          | .ok condition =>
            if condition then
              match renderNodes ctx body with
              | (.error e, ctx') => (.error e, ctx')
              | (.ok s, ctx') => (.ok (some s), ctx')
            else renderElifItems ctx rest
      else if conditionNode.type = EXPRESSION_NODE then
        match evaluateExpression ctx conditionNode with
        | .error e => (.error e, ctx)
        | .ok v =>
          if isTruthy v then
            match renderNodes ctx body with
            | (.error e, ctx') => (.error e, ctx')
            | (.ok s, ctx') => (.ok (some s), ctx')
          else renderElifItems ctx rest
      else (.error (.renderError "elif node has nil condition"), ctx)
termination_by (sizeOf items, 1)
decreasing_by
  all_goals simp_wf
  all_goals
    first
      | exact Prod.Lex.right _ (by omega)
      | exact Prod.Lex.right _ (by simp only [List.length_cons]; omega)
      | exact Prod.Lex.left _ _ (Node.sizeOf_children_lt _)
      | exact Prod.Lex.left _ _ (Node.sizeOf_children_lt_cons _ _)
      | exact Prod.Lex.left _ _ (by
          simp only [Node.mk.sizeOf_spec, List.cons.sizeOf_spec]
          omega)
      | exact Prod.Lex.left _ _ (by omega)

/-- `renderConditionalBranch` from `src/unnamed/part_002`: render the
children of the first node of the requested branch kind, or the empty
string if the branch is absent. -/
def renderConditionalBranch (ctx : Ctx) (nodes : List Node)
    (branchType : NodeType) : (Except GoError String) × Ctx :=
  match nodes with
  | [] => (.ok "", ctx)
  | node :: rest =>
    if node.type = branchType then renderNodes ctx node.children
    else renderConditionalBranch ctx rest branchType
termination_by (sizeOf nodes, 1)
decreasing_by
  all_goals simp_wf
  all_goals
    first
      | exact Prod.Lex.right _ (by omega)
      | exact Prod.Lex.right _ (by simp only [List.length_cons]; omega)
      | exact Prod.Lex.left _ _ (Node.sizeOf_children_lt _)
      | exact Prod.Lex.left _ _ (Node.sizeOf_children_lt_cons _ _)
      | exact Prod.Lex.left _ _ (by
          simp only [Node.mk.sizeOf_spec, List.cons.sizeOf_spec]
          omega)
      | exact Prod.Lex.left _ _ (by omega)

/-- `renderForNode` from `src/unnamed/part_002`: extract the iteratee
name and the iterator slice, then render each `FOR_BODY` child once per
element. -/
def renderForNode (ctx : Ctx) (n : Node) : (Except GoError String) × Ctx :=
  match forExtract ctx n.children "" [] with
  | .error e => (.error e, ctx)
  | .ok (iteratee, iterator) => renderForBodies ctx n.children iteratee iterator
termination_by (sizeOf n, 2)
decreasing_by
  simp_wf
  exact Prod.Lex.left _ _ (Node.sizeOf_children_lt n)

/-- The second loop of `renderForNode`: for each `FOR_BODY` child, save
the prior binding of the iteratee, run the loop, and restore the binding
— but, exactly as in the Go code, an error from the loop body returns
immediately, *skipping the restore*. -/
def renderForBodies (ctx : Ctx) (children : List Node) (iteratee : String)
    (iterator : List Value) : (Except GoError String) × Ctx :=
  match children with
  | [] => (.ok "", ctx)
  | c :: rest =>
    if c.type = FOR_BODY then
      -- Store original value to restore after loop
      let saved := ctxLookup ctx iteratee
      match renderForLoop ctx c.children iteratee iterator with
      | (.error e, ctx') => (.error e, ctx')
      | (.ok s, ctx') =>
        -- Restore original context
        let ctx'' :=
          match saved with
          | some originalValue => ctxSet ctx' iteratee originalValue
          | none => ctxErase ctx' iteratee
        match renderForBodies ctx'' rest iteratee iterator with
        | (.error e, ctx3) => (.error e, ctx3)
        | (.ok s2, ctx3) => (.ok (s ++ s2), ctx3)
    else renderForBodies ctx rest iteratee iterator
termination_by (sizeOf children, 2)
decreasing_by
  all_goals simp_wf
  all_goals
    first
      | exact Prod.Lex.right _ (by omega)
      | exact Prod.Lex.right _ (by simp only [List.length_cons]; omega)
      | exact Prod.Lex.left _ _ (Node.sizeOf_children_lt _)
      | exact Prod.Lex.left _ _ (Node.sizeOf_children_lt_cons _ _)
      | exact Prod.Lex.left _ _ (by
          simp only [Node.mk.sizeOf_spec, List.cons.sizeOf_spec]
          omega)
      | exact Prod.Lex.left _ _ (by omega)

/-- The per-element loop of `renderForNode`: bind the iteratee to the
element, render the body, and wrap any body error in the
`"error in for loop: %v"` RenderError. -/
def renderForLoop (ctx : Ctx) (body : List Node) (iteratee : String)
    (items : List Value) : (Except GoError String) × Ctx :=
  match items with
  | [] => (.ok "", ctx)
  | item :: rest =>
    let ctx1 := ctxSet ctx iteratee item
    match renderNodes ctx1 body with
    | (.error e, ctx2) =>
      (.error (.renderError ("error in for loop: " ++ e.display)), ctx2)
    | (.ok s, ctx2) =>
      match renderForLoop ctx2 body iteratee rest with
      | (.error e, ctx3) => (.error e, ctx3)
      | (.ok s2, ctx3) => (.ok (s ++ s2), ctx3)
termination_by (sizeOf body, items.length)
decreasing_by
  all_goals simp_wf
  all_goals
    first
      | exact Prod.Lex.right _ (by omega)
      | exact Prod.Lex.right _ (by simp only [List.length_cons]; omega)
      | exact Prod.Lex.left _ _ (Node.sizeOf_children_lt _)
      | exact Prod.Lex.left _ _ (Node.sizeOf_children_lt_cons _ _)
      | exact Prod.Lex.left _ _ (by
          simp only [Node.mk.sizeOf_spec, List.cons.sizeOf_spec]
          omega)
      | exact Prod.Lex.left _ _ (by omega)

end

/-- The `Renderer` struct from `src/unnamed/part_002`. -/
structure Renderer : Type where
  Context : Ctx
  AST : List Node

/-- `New` from `src/unnamed/part_002`: a `nil` context (modelled as
`Option.none`) is replaced by a fresh empty map. -/
def Renderer.New (ast : List Node) (context : Option Ctx) : Renderer :=
  ⟨match context with
    | none => []
    | some c => c,
   ast⟩

/-- `Render` from `src/unnamed/part_002`. -/
def Renderer.Render (r : Renderer) : (Except GoError String) × Ctx :=
  renderNodes r.Context r.AST

/-! ### Concrete AST constructors used by the theorems below -/

/-- A bare `VARIABLE_NODE` (leaf). -/
def varN (s : String) : Node := .mk VARIABLE_NODE (some s) []

/-- A `TEXT_NODE` (leaf). -/
def textN (s : String) : Node := .mk TEXT_NODE (some s) []

/-- An operator node (kind plus its lexeme, as the parser stores it). -/
def opN (t : NodeType) (lex : String) : Node := .mk t (some lex) []

/-- An `EXPRESSION_NODE` with the given child sequence. -/
def exprN (cs : List Node) : Node := .mk EXPRESSION_NODE none cs

/-- The operand-selection semantics of `&&` (`left && right` is `left` if
`left` is falsy, else `right`) — the right-hand side the spec ascribes to
the evaluator. -/
def andSelect (l r : Value) : Value := if isTruthy l then r else l

/-- The operand-selection semantics of `||` (`left || right` is `left` if
`left` is truthy, else `right`). -/
def orSelect (l r : Value) : Value := if isTruthy l then l else r

/-! ## Claim theorems -/

/-- **C4** Short-circuit-as-selection: for all values `left` and `right`,
`left && right` yields `left` if `left` is falsy and `right` otherwise,
and `left || right` yields `left` if `left` is truthy and `right`
otherwise — both at the level of `evaluateTopOperator` (for any stack
tails) and through the full `evaluateExpression` machine; the result is
one of the operand values, not necessarily a boolean. -/
theorem short_circuit_selects_operand (l r : Value) (rest : List Value)
    (ops : List NodeType) :
    evaluateTopOperator (r :: l :: rest) (OP_AND :: ops)
        = .ok ((andSelect l r) :: rest, ops)
    ∧ evaluateTopOperator (r :: l :: rest) (OP_OR :: ops)
        = .ok ((orSelect l r) :: rest, ops)
    ∧ evaluateExpression [("a", l), ("b", r)]
        (exprN [varN "a", opN OP_AND "&&", varN "b"]) = .ok (andSelect l r)
    ∧ evaluateExpression [("a", l), ("b", r)]
        (exprN [varN "a", opN OP_OR "||", varN "b"]) = .ok (orSelect l r) := by
  have hf1 : Node.weight (exprN [varN "a", opN OP_AND "&&", varN "b"]) = 19 := by
    simp [Node.weight, Node.weightList, exprN, varN, opN]
  have hf2 : Node.weight (exprN [varN "a", opN OP_OR "||", varN "b"]) = 19 := by
    simp [Node.weight, Node.weightList, exprN, varN, opN]
  refine ⟨rfl, rfl, ?_, ?_⟩
  · simp only [evaluateExpression, hf1]
    exact rfl
  · simp only [evaluateExpression, hf2]
    exact rfl

/-- The If node of the C2 counter-scenario:
`{{ if a }}A{{ elif b }}{{ else }}Z{{ endif }}` — a falsy `if` condition,
a truthy `elif` whose body is empty, and an else branch rendering `Z`. -/
def c2IfNode : Node :=
  .mk IF_NODE none
    [varN "a",
     .mk THEN_BRANCH none [textN "A"],
     .mk ELIF_BRANCH none [.mk ELIF_ITEM none [varN "b"]],
     .mk ELSE_BRANCH none [textN "Z"]]

/-- Context for the C2 scenario: `a` false, `b` true. -/
def c2Ctx : Ctx := [("a", .bool false), ("b", .bool true)]

/-- **C2** (failing corner, exhibited): with `a` falsy and the elif
condition `b` truthy but its body empty, the renderer renders the *else*
branch (`"Z"`) — the truthy elif does **not** suppress the else branch,
because `renderIfNode` tests `elifResult != ""` instead of whether an
elif condition matched (contradicting its own comment
"If no conditions matched, try else branch"). -/
theorem elif_empty_body_falls_through_to_else :
    renderNode c2Ctx c2IfNode = (.ok "Z", c2Ctx) ∧ ("Z" : String) ≠ "" := by
  constructor
  · simp [c2IfNode, c2Ctx, renderNode, renderIfNode, renderIfFallthrough,
      renderElifBranches, renderElifItems, renderConditionalBranch,
      renderNodes, evaluateCondition, variableLookup, ctxLookup,
      varN, textN, Node.children, Node.type, Node.value]
  · decide

/-- The For node of the C1 counter-scenario:
`{{ for x in xs }}{{ missing }}{{ endfor }}` — the body references an
unbound variable, so rendering the body fails on the first element. -/
def c1ForNode : Node :=
  .mk FOR_NODE none
    [.mk ITERATEE_ITEM (some "x") [],
     .mk ITERATOR_ITEM (some "xs") [],
     .mk FOR_BODY none [varN "missing"]]

/-- Context before the C1 scenario: `x` bound to `"old"`, `xs` a
one-element slice. -/
def c1Ctx : Ctx := [("x", .str "old"), ("xs", .list [.int 1])]

/-- Context after the C1 scenario: `x` is left bound to the loop element
`1`; the prior binding `"old"` was not restored. -/
def c1CtxAfter : Ctx := [("x", .int 1), ("xs", .list [.int 1])]

/-- **C1** (failing corner, exhibited): rendering the For node aborts
with an error raised while rendering the loop body, and the context
afterwards differs from the context before — the iteratee `x` is left
bound to the loop element because `renderForNode` returns on the error
path *before* the restore code runs.  This contradicts the claimed
invariant that `ctx` is unchanged on every exit path including errors. -/
theorem for_body_error_skips_context_restore :
    renderNode c1Ctx c1ForNode =
      (.error (.renderError
        "error in for loop: render error: variable \x27missing\x27 not found in context"),
       c1CtxAfter)
    ∧ c1CtxAfter ≠ c1Ctx := by
  constructor
  · simp [c1ForNode, c1Ctx, c1CtxAfter, renderNode, renderForNode,
      forExtract, renderForBodies, renderForLoop, renderNodes,
      variableLookup, ctxLookup, ctxSet, GoError.display,
      varN, Node.children, Node.type, Node.value]
  · simp [c1CtxAfter, c1Ctx]

/-- **C5** Operator precedence in the evaluator: the precedence table is
`!` at level 5, the six comparisons at level 4, `&&` at level 2, `||` at
level 1; `hasHigherPrecedence` is the strict comparison of those levels
(so stacked operators are popped only while strictly higher); and the
resulting routing is observable through `evaluateExpression`:
`a && b || c` groups as `(a && b) || c`, `a || b && c` groups as
`a || (b && c)`, `a == b && c` applies the comparison before `&&`, and a
prefix `!` binds to its operand before `||` is applied. -/
theorem evaluator_operator_precedence :
    (precedence OP_BANG = 5 ∧ precedence OP_EQUALS = 4
      ∧ precedence OP_NOT_EQUALS = 4 ∧ precedence OP_GT = 4
      ∧ precedence OP_LT = 4 ∧ precedence OP_GTE = 4 ∧ precedence OP_LTE = 4
      ∧ precedence OP_AND = 2 ∧ precedence OP_OR = 1)
    ∧ (∀ op1 op2, hasHigherPrecedence op1 op2
        = decide (precedence op1 > precedence op2))
    ∧ (∀ va vb vc, evaluateExpression [("a", va), ("b", vb), ("c", vc)]
        (exprN [varN "a", opN OP_AND "&&", varN "b", opN OP_OR "||", varN "c"])
        = .ok (orSelect (andSelect va vb) vc))
    ∧ (∀ va vb vc, evaluateExpression [("a", va), ("b", vb), ("c", vc)]
        (exprN [varN "a", opN OP_OR "||", varN "b", opN OP_AND "&&", varN "c"])
        = .ok (orSelect va (andSelect vb vc)))
    ∧ (∀ va vb vc, evaluateExpression [("a", va), ("b", vb), ("c", vc)]
        (exprN [varN "a", opN OP_EQUALS "==", varN "b", opN OP_AND "&&", varN "c"])
        = .ok (andSelect (.bool (compareValues va vb == 0)) vc))
    ∧ (∀ va vb, evaluateExpression [("a", va), ("b", vb)]
        (exprN [opN OP_BANG "!", varN "a", opN OP_OR "||", varN "b"])
        = .ok (orSelect (.bool (!isTruthy va)) vb)) := by
  have hf1 : Node.weight
      (exprN [varN "a", opN OP_AND "&&", varN "b", opN OP_OR "||", varN "c"])
      = 29 := by
    simp [Node.weight, Node.weightList, exprN, varN, opN]
  have hf2 : Node.weight
      (exprN [varN "a", opN OP_OR "||", varN "b", opN OP_AND "&&", varN "c"])
      = 29 := by
    simp [Node.weight, Node.weightList, exprN, varN, opN]
  have hf3 : Node.weight
      (exprN [varN "a", opN OP_EQUALS "==", varN "b", opN OP_AND "&&", varN "c"])
      = 29 := by
    simp [Node.weight, Node.weightList, exprN, varN, opN]
  have hf4 : Node.weight
      (exprN [opN OP_BANG "!", varN "a", opN OP_OR "||", varN "b"])
      = 24 := by
    simp [Node.weight, Node.weightList, exprN, varN, opN]
  refine ⟨⟨rfl, rfl, rfl, rfl, rfl, rfl, rfl, rfl, rfl⟩,
    fun op1 op2 => rfl, ?_, ?_, ?_, ?_⟩
  · intro va vb vc
    simp only [evaluateExpression, hf1]
    exact rfl
  · intro va vb vc
    simp only [evaluateExpression, hf2]
    exact rfl
  · intro va vb vc
    simp only [evaluateExpression, hf3]
    exact rfl
  · intro va vb
    simp only [evaluateExpression, hf4]
    exact rfl

/-- **C8** (refuted as stated): `a ?? b` with a non-null bound left
operand (`a` bound to `"Premium"`, the role of `accountType` in the
claim's example) does *not* evaluate to the left operand — the evaluator
has no case for `OP_NULL_COALESCE`, leaves both operands on the stack,
and aborts with an invalid-expression error. -/
theorem null_coalesce_not_operand_selection :
    evaluateExpression [("a", .str "Premium"), ("b", .str "Standard")]
      (exprN [varN "a", opN OP_NULL_COALESCE "??", varN "b"])
      = .error (.plain "invalid expression: expected 1 final result, got 2")
    ∧ evaluateExpression [("a", .str "Premium"), ("b", .str "Standard")]
      (exprN [varN "a", opN OP_NULL_COALESCE "??", varN "b"])
      ≠ .ok (.str "Premium") := by
  have hs : ("invalid expression: expected 1 final result, got "
        ++ toString (2 : Nat))
      = "invalid expression: expected 1 final result, got 2" := by decide
  have hf : Node.weight (exprN [varN "a", opN OP_NULL_COALESCE "??", varN "b"])
      = 19 := by
    simp [Node.weight, Node.weightList, exprN, varN, opN]
  have h : evaluateExpression
      [("a", .str "Premium"), ("b", .str "Standard")]
      (exprN [varN "a", opN OP_NULL_COALESCE "??", varN "b"])
      = .error (.plain "invalid expression: expected 1 final result, got 2") := by
    simp only [evaluateExpression, hf]
    show Except.error (GoError.plain
        ("invalid expression: expected 1 final result, got "
          ++ toString (2 : Nat))) = _
    rw [hs]
  exact ⟨h, by rw [h]; simp⟩

/-- **C8 (amended)** For *all* operand values, evaluating
`left ?? right` through `evaluateExpression` aborts with the
invalid-expression error: the `OP_NULL_COALESCE` node matches no case of
the evaluator's dispatch, so it is skipped, both operands remain on the
operand stack, and the final arity check fails. -/
theorem null_coalesce_aborts_rendering (l r : Value) :
    evaluateExpression [("a", l), ("b", r)]
      (exprN [varN "a", opN OP_NULL_COALESCE "??", varN "b"])
      = .error (.plain "invalid expression: expected 1 final result, got 2") := by
  have hs : ("invalid expression: expected 1 final result, got "
        ++ toString (2 : Nat))
      = "invalid expression: expected 1 final result, got 2" := by decide
  have hf : Node.weight (exprN [varN "a", opN OP_NULL_COALESCE "??", varN "b"])
      = 19 := by
    simp [Node.weight, Node.weightList, exprN, varN, opN]
  simp only [evaluateExpression, hf]
  show Except.error (GoError.plain
      ("invalid expression: expected 1 final result, got "
        ++ toString (2 : Nat))) = _
  rw [hs]

/-- The If node of the C9 elif scenario with a bare elif condition:
`{{ if a }}A{{ elif b }}B{{ else }}Z{{ endif }}`. -/
def c9ElifBareNode : Node :=
  .mk IF_NODE none
    [varN "a",
     .mk THEN_BRANCH none [textN "A"],
     .mk ELIF_BRANCH none [.mk ELIF_ITEM none [varN "b", textN "B"]],
     .mk ELSE_BRANCH none [textN "Z"]]

/-- The same If node with the elif condition wrapped in an
`EXPRESSION_NODE`. -/
def c9ElifExprNode : Node :=
  .mk IF_NODE none
    [varN "a",
     .mk THEN_BRANCH none [textN "A"],
     .mk ELIF_BRANCH none [.mk ELIF_ITEM none [exprN [varN "b"], textN "B"]],
     .mk ELSE_BRANCH none [textN "Z"]]

/-- Context for the C9 elif scenario: `a` false, `b` a truthy
non-boolean. -/
def c9Ctx : Ctx := [("a", .bool false), ("b", .int 3)]

/-- **C9** Typed bare-variable conditions: an `IF_NODE` — and likewise
an elif item — whose condition child is a bare `VARIABLE_NODE` requires
the variable to be bound to a boolean: a missing variable or a
non-boolean value aborts rendering with an error, whatever the branches
are (conjuncts 1–2 for the If condition via `renderIfNode`, conjuncts
5–6 for an elif-item condition via `renderElifItems`, the inner loop of
`renderElifBranches`).  No truthiness coercion is applied to bare
variables: the same truthy non-boolean value errors as a bare condition
but selects the branch when wrapped in an `EXPRESSION_NODE` — conjuncts
3–4 for the then-branch, conjuncts 7–8 for an elif branch reached
through the full renderer on an If node with a falsy condition. -/
theorem typed_bare_variable_condition :
    (∀ (ctx : Ctx) (name : String) (rest : List Node),
        ctxLookup ctx name = none →
        renderIfNode ctx (.mk IF_NODE none (varN name :: rest)) =
          (.error (.renderError
            ("condition variable \x27" ++ name ++ "\x27 not found in context")), ctx))
    ∧ (∀ (ctx : Ctx) (name : String) (v : Value) (rest : List Node),
        ctxLookup ctx name = some v → (∀ b, v ≠ .bool b) →
        renderIfNode ctx (.mk IF_NODE none (varN name :: rest)) =
          (.error (.renderError
            ("condition variable \x27" ++ name ++ "\x27 is not a boolean")), ctx))
    ∧ renderNode [("x", .str "hi")]
        (.mk IF_NODE none [varN "x", .mk THEN_BRANCH none [textN "T"]])
        = (.error (.renderError "condition variable \x27x\x27 is not a boolean"),
           [("x", .str "hi")])
    ∧ renderNode [("x", .str "hi")]
        (.mk IF_NODE none [exprN [varN "x"], .mk THEN_BRANCH none [textN "T"]])
        = (.ok "T", [("x", .str "hi")])
    ∧ (∀ (ctx : Ctx) (name : String) (body rest : List Node),
        ctxLookup ctx name = none →
        renderElifItems ctx (.mk ELIF_ITEM none (varN name :: body) :: rest) =
          (.error (.renderError
            ("condition variable \x27" ++ name ++ "\x27 not found in context")), ctx))
    ∧ (∀ (ctx : Ctx) (name : String) (v : Value) (body rest : List Node),
        ctxLookup ctx name = some v → (∀ b, v ≠ .bool b) →
        renderElifItems ctx (.mk ELIF_ITEM none (varN name :: body) :: rest) =
          (.error (.renderError
            ("condition variable \x27" ++ name ++ "\x27 is not a boolean")), ctx))
    ∧ renderNode c9Ctx c9ElifBareNode
        = (.error (.renderError "condition variable \x27b\x27 is not a boolean"),
           c9Ctx)
    ∧ renderNode c9Ctx c9ElifExprNode = (.ok "B", c9Ctx) := by
  refine ⟨?_, ?_, ?_, ?_, ?_, ?_, ?_, ?_⟩
  · intro ctx name rest hlook
    simp [renderIfNode, varN, Node.type, Node.value, Node.children,
      evaluateCondition, variableLookup, hlook]
  · intro ctx name v rest hlook hnb
    cases v with
    | bool b => exact absurd rfl (hnb b)
    | null =>
      simp [renderIfNode, varN, Node.type, Node.value, Node.children,
        evaluateCondition, variableLookup, hlook]
    | int n =>
      simp [renderIfNode, varN, Node.type, Node.value, Node.children,
        evaluateCondition, variableLookup, hlook]
    | str s =>
      simp [renderIfNode, varN, Node.type, Node.value, Node.children,
        evaluateCondition, variableLookup, hlook]
    | list xs =>
      simp [renderIfNode, varN, Node.type, Node.value, Node.children,
        evaluateCondition, variableLookup, hlook]
    | map m =>
      simp [renderIfNode, varN, Node.type, Node.value, Node.children,
        evaluateCondition, variableLookup, hlook]
  · simp [renderNode, renderIfNode, varN, textN, exprN, Node.type, Node.value,
      Node.children, evaluateCondition, variableLookup, ctxLookup]
  · have hf : Node.weight
        (Node.mk EXPRESSION_NODE none [Node.mk VARIABLE_NODE (some "x") []])
        = 9 := by
      simp [Node.weight, Node.weightList]
    have he : evaluateExpression [("x", .str "hi")]
        (Node.mk EXPRESSION_NODE none [Node.mk VARIABLE_NODE (some "x") []])
        = .ok (.str "hi") := by
      simp only [evaluateExpression, hf]
      exact rfl
    simp [renderNode, renderIfNode, renderConditionalBranch, renderNodes,
      varN, textN, exprN, Node.type, Node.value, Node.children,
      he, isTruthy]
  · intro ctx name body rest hlook
    simp [renderElifItems, varN, Node.type, Node.value,
      evaluateCondition, variableLookup, hlook]
  · intro ctx name v body rest hlook hnb
    cases v with
    | bool b => exact absurd rfl (hnb b)
    | null =>
      simp [renderElifItems, varN, Node.type, Node.value,
        evaluateCondition, variableLookup, hlook]
    | int n =>
      simp [renderElifItems, varN, Node.type, Node.value,
        evaluateCondition, variableLookup, hlook]
    | str s =>
      simp [renderElifItems, varN, Node.type, Node.value,
        evaluateCondition, variableLookup, hlook]
    | list xs =>
      simp [renderElifItems, varN, Node.type, Node.value,
        evaluateCondition, variableLookup, hlook]
    | map m =>
      simp [renderElifItems, varN, Node.type, Node.value,
        evaluateCondition, variableLookup, hlook]
  · simp [c9Ctx, c9ElifBareNode, renderNode, renderIfNode,
      renderIfFallthrough, renderElifBranches, renderElifItems,
      renderConditionalBranch, renderNodes, evaluateCondition,
      variableLookup, ctxLookup, varN, textN,
      Node.type, Node.value, Node.children]
  · have hf : Node.weight
        (Node.mk EXPRESSION_NODE none [Node.mk VARIABLE_NODE (some "b") []])
        = 9 := by
      simp [Node.weight, Node.weightList]
    have he : evaluateExpression [("a", .bool false), ("b", .int 3)]
        (Node.mk EXPRESSION_NODE none [Node.mk VARIABLE_NODE (some "b") []])
        = .ok (.int 3) := by
      simp only [evaluateExpression, hf]
      exact rfl
    simp [c9Ctx, c9ElifExprNode, renderNode, renderIfNode,
      renderIfFallthrough, renderElifBranches, renderElifItems,
      renderConditionalBranch, renderNodes, evaluateCondition,
      variableLookup, ctxLookup, varN, textN, exprN,
      Node.type, Node.value, Node.children, he, isTruthy]

/-- Witness for C9: the missing-variable and non-boolean cases, both for
the If condition (at `ctx = []` and `a ↦ 3` through `renderIfNode`) and
for an elif-item condition (through `renderElifItems`), all discharged
by applying `typed_bare_variable_condition` at concrete inputs. -/
theorem typed_bare_variable_condition_witness :
    renderIfNode [] (.mk IF_NODE none [varN "a"]) =
      (.error (.renderError "condition variable \x27a\x27 not found in context"),
       ([] : Ctx))
    ∧ renderIfNode [("a", .int 3)] (.mk IF_NODE none [varN "a"]) =
      (.error (.renderError "condition variable \x27a\x27 is not a boolean"),
       [("a", .int 3)])
    ∧ renderElifItems [] [.mk ELIF_ITEM none [varN "a"]] =
      (.error (.renderError "condition variable \x27a\x27 not found in context"),
       ([] : Ctx))
    ∧ renderElifItems [("a", .int 3)] [.mk ELIF_ITEM none [varN "a"]] =
      (.error (.renderError "condition variable \x27a\x27 is not a boolean"),
       [("a", .int 3)]) := by
  refine ⟨?_, ?_, ?_, ?_⟩
  · exact typed_bare_variable_condition.1 [] "a" [] rfl
  · exact typed_bare_variable_condition.2.1 [("a", .int 3)] "a" (.int 3) [] rfl
      (fun b h => by cases h)
  · exact typed_bare_variable_condition.2.2.2.2.1 [] "a" [] [] rfl
  · exact typed_bare_variable_condition.2.2.2.2.2.1 [("a", .int 3)] "a"
      (.int 3) [] [] rfl (fun b h => by cases h)

/-- **C10** Nil-context totality: constructing a renderer with a nil
context is *equal* to constructing it with an empty context; rendering
does not fault — plain text still renders, and a variable lookup under
the nil-constructed renderer reports the variable as not found. -/
theorem nil_context_behaves_as_empty (ast : List Node) (s k : String) :
    Renderer.New ast none = Renderer.New ast (some [])
    ∧ (Renderer.New [textN s] none).Render = (.ok s, ([] : Ctx))
    ∧ (Renderer.New [varN k] none).Render =
        (.error (.renderError ("variable \x27" ++ k ++ "\x27 not found in context")),
         ([] : Ctx))
    ∧ variableLookup (Renderer.New ast none).Context k = none := by
  refine ⟨rfl, ?_, ?_, rfl⟩ <;>
    simp [Renderer.New, Renderer.Render, renderNodes, renderNode, textN, varN,
      Node.type, Node.value, variableLookup, ctxLookup]

/-- Modelled from the spec: evaluation of `IndexAccess(var, key)`
(template syntax `var['key']`).  The code implementing index access is
not present under `src/`: the parser in `src/parser/parser.go` predates
bracket handling (it silently drops `[` and `]` tokens), the object-access
parser test in `src/parser/parser_test.go` is commented out, and the
renderer in `src/unnamed/part_002` has no index-access case in
`evaluateExpression`; only the renderer tests
(`src/unnamed/part_004`, "Basic object access") exercise the feature.
Per spec §4.3 "Index access": evaluate `var` (must be a mapping), then
return `mapping[key]`; a missing key aborts with a RenderError. -/
def evaluateIndexAccess (ctx : Ctx) (varName key : String) : Except GoError Value :=
  match ctxLookup ctx varName with
  | none =>
    .error (.renderError ("variable \x27" ++ varName ++ "\x27 not found in context"))
  | some (.map m) =>
    match ctxLookup m key with
    | some v => .ok v
    | none =>
      .error (.renderError
        ("key \x27" ++ key ++ "\x27 not found in mapping \x27" ++ varName ++ "\x27"))
  | some v =>
    .error (.renderError
      ("variable \x27" ++ varName ++ "\x27 is not a mapping, got " ++ goTypeName v))

/-- **C3** Index access (against the spec-modelled definition): when the
context binds `var` to a mapping, `IndexAccess(var, key)` returns
`mapping[key]`; when the key is missing from the mapping, evaluation
aborts with a RenderError. -/
theorem index_access_returns_mapping_value (ctx : Ctx) (varName key : String)
    (m : List (String × Value)) (h : ctxLookup ctx varName = some (.map m)) :
    (∀ v, ctxLookup m key = some v →
      evaluateIndexAccess ctx varName key = .ok v)
    ∧ (ctxLookup m key = none →
      ∃ msg, evaluateIndexAccess ctx varName key = .error (.renderError msg)) := by
  constructor
  · intro v hv
    simp [evaluateIndexAccess, h, hv]
  · intro hn
    exact ⟨"key \x27" ++ key ++ "\x27 not found in mapping \x27" ++ varName ++ "\x27",
      by simp [evaluateIndexAccess, h, hn]⟩

/-- Witness for C3: `person['address']` with
`person ↦ map[address:Istanbul]` returns `"Istanbul"`, and a missing key
`'zip'` aborts with a RenderError, both by applying
`index_access_returns_mapping_value` at concrete inputs. -/
theorem index_access_returns_mapping_value_witness :
    evaluateIndexAccess [("person", .map [("address", .str "Istanbul")])]
      "person" "address" = .ok (.str "Istanbul")
    ∧ ∃ msg, evaluateIndexAccess [("person", .map [("address", .str "Istanbul")])]
      "person" "zip" = .error (.renderError msg) := by
  constructor
  · exact (index_access_returns_mapping_value
      [("person", .map [("address", .str "Istanbul")])] "person" "address"
      [("address", .str "Istanbul")] rfl).1 _ rfl
  · exact (index_access_returns_mapping_value
      [("person", .map [("address", .str "Istanbul")])] "person" "zip"
      [("address", .str "Istanbul")] rfl).2 rfl

/-! ## Lexer tokens (`src/lexer/lexer.go`) -/

/-- Token kinds, from `src/lexer/lexer.go` (`TokenType`).  `EOF` models
the pseudo-token `{Type: -1, Value: "EOF"}` that the parser's `peek`
returns past the end of the token list. -/
inductive TokenType : Type where
  | TEXT
  | OPEN_CURLY
  | CLOSE_CURLY
  | IDENTIFIER
  | KEYWORD
  | PIPE
  | AMPERSAND
  | NUMBER
  | STRING
  | LTE
  | GTE
  | EQ
  | NEQ
  | GT
  | LT
  | RPAREN
  | LPAREN
  | OPEN_BRACKET
  | CLOSE_BRACKET
  | BANG
  | NULL_COALESCE
  | EOF
deriving DecidableEq, Repr

/-- A lexer token (`type Token struct`): a lexeme and a kind. -/
structure Token : Type where
  value : String
  type : TokenType
deriving DecidableEq, Repr

/-! ## C6: parenthesised grouping (spec-modelled expression parser) -/

/-- Mapping from operator tokens to operator AST nodes, following the
spec's expression grammar (§4.2, §6). -/
def tokToOpNode (t : Token) : Option Node :=
  match t.type with
  | .AMPERSAND => some (opN OP_AND t.value)
  | .PIPE => some (opN OP_OR t.value)
  | .EQ => some (opN OP_EQUALS t.value)
  | .NEQ => some (opN OP_NOT_EQUALS t.value)
  | .GT => some (opN OP_GT t.value)
  | .LT => some (opN OP_LT t.value)
  | .GTE => some (opN OP_GTE t.value)
  | .LTE => some (opN OP_LTE t.value)
  | .BANG => some (opN OP_BANG t.value)
  | .NULL_COALESCE => some (opN OP_NULL_COALESCE t.value)
  | _ => none

/-- Modelled from the spec: the expression-parsing loop of `parseVar` at
the repository head.  The `parseVar` revision that handles parentheses is
not present under `src/`: the revision in `src/parser/parser.go` silently
drops `(`, `)`, `!` and `??` tokens (its operator `switch` has no case
for them), yet the parser tests in `src/parser/parser_test.go` pin ASTs
containing `OP_BANG`, `OP_NULL_COALESCE` and nested `EXPRESSION_NODE`
children for parenthesised groups — so only the tests of the deciding
code are under `src/`.  Per spec §4.2 "Expression parsing": operands and
operators are collected in source order, and "a parenthesised
sub-expression yields a nested `Expression` child"; index-access
operands are omitted here (they are modelled separately by
`evaluateIndexAccess`).  The sequence stops, without consuming the
token, at `}}` or at the `)` closing the current group. -/
def parseExprSeq : Nat → List Token → Except String (List Node × List Token)
  | 0, _ => .error "out of fuel"
  | _, [] => .ok ([], [])
  | fuel + 1, t :: rest =>
    match t.type with
    | .CLOSE_CURLY => .ok ([], t :: rest)
    | .RPAREN => .ok ([], t :: rest)
    | .LPAREN =>
      match parseExprSeq fuel rest with
      | .error e => .error e
      | .ok (inner, rest') =>
        match rest' with
        | r :: rest'' =>
          if r.type = .RPAREN then
            match parseExprSeq fuel rest'' with
            | .error e => .error e
            | .ok (nodes, rest3) => .ok (exprN inner :: nodes, rest3)
          else .error "expected closing parenthesis"
        | [] => .error "expected closing parenthesis"
    | .IDENTIFIER =>
      match parseExprSeq fuel rest with
      | .error e => .error e
      | .ok (nodes, rest') => .ok (varN t.value :: nodes, rest')
    | .STRING =>
      match parseExprSeq fuel rest with
      | .error e => .error e
      | .ok (nodes, rest') =>
        .ok (Node.mk STRING_LITERAL_NODE (some t.value) [] :: nodes, rest')
    | .NUMBER =>
      match parseExprSeq fuel rest with
      | .error e => .error e
      | .ok (nodes, rest') =>
        .ok (Node.mk NUMBER_LITERAL_NODE (some t.value) [] :: nodes, rest')
    | _ =>
      match tokToOpNode t with
      | some n =>
        match parseExprSeq fuel rest with
        | .error e => .error e
        | .ok (nodes, rest') => .ok (n :: nodes, rest')
      | none => .error ("unexpected token in expression: " ++ t.value)

/-- Modelled from the spec: the tag-level expression parse.  The child
sequence of a tag becomes one `EXPRESSION_NODE`; per spec §3
("An `Expression` node with a single non-operator child is equivalent to
that child; parsers may either keep the wrapper or unwrap it") and the
pinned test ASTs in `src/parser/parser_test.go` ("simple nested
parentheses", "deeply nested parentheses"), an outermost parenthesised
group that spans the whole tag *is* the top-level Expression rather than
being wrapped twice. -/
def parseTagExpr (ts : List Token) : Except String Node :=
  match parseExprSeq (ts.length + 1) ts with
  | .error e => .error e
  | .ok (children, _) =>
    match children with
    | [Node.mk EXPRESSION_NODE v cs] => .ok (Node.mk EXPRESSION_NODE v cs)
    | _ => .ok (exprN children)

/-- The token sequence inside the tag `{{ (a && (b || c)) }}`, as the
lexer in `src/lexer/lexer.go` produces it. -/
def c6Tokens : List Token :=
  [⟨"(", .LPAREN⟩, ⟨"a", .IDENTIFIER⟩, ⟨"&&", .AMPERSAND⟩, ⟨"(", .LPAREN⟩,
   ⟨"b", .IDENTIFIER⟩, ⟨"||", .PIPE⟩, ⟨"c", .IDENTIFIER⟩, ⟨")", .RPAREN⟩,
   ⟨")", .RPAREN⟩, ⟨"\x7d\x7d", .CLOSE_CURLY⟩]

/-- The token sequence inside
`{{ (age > 18 && (role == 'admin' || role == 'moderator')) }}`
(the "simple nested parentheses" test of `src/parser/parser_test.go`). -/
def c6TokensTest : List Token :=
  [⟨"(", .LPAREN⟩, ⟨"age", .IDENTIFIER⟩, ⟨">", .GT⟩, ⟨"18", .NUMBER⟩,
   ⟨"&&", .AMPERSAND⟩, ⟨"(", .LPAREN⟩, ⟨"role", .IDENTIFIER⟩, ⟨"==", .EQ⟩,
   ⟨"admin", .STRING⟩, ⟨"||", .PIPE⟩, ⟨"role", .IDENTIFIER⟩, ⟨"==", .EQ⟩,
   ⟨"moderator", .STRING⟩, ⟨")", .RPAREN⟩, ⟨")", .RPAREN⟩,
   ⟨"\x7d\x7d", .CLOSE_CURLY⟩]

/-- **C6** Parenthesised grouping (against the spec-modelled parser):
parsing the tag `{{ (a && (b || c)) }}` yields an `EXPRESSION_NODE`
containing a nested `EXPRESSION_NODE` child for the inner group
`(b || c)`, so grouping is represented in the AST; the same shape is
produced for the "simple nested parentheses" example pinned by the
repository's parser tests. -/
theorem paren_group_yields_nested_expression :
    parseTagExpr c6Tokens
      = .ok (exprN [varN "a", opN OP_AND "&&",
          exprN [varN "b", opN OP_OR "||", varN "c"]])
    ∧ parseTagExpr c6TokensTest
      = .ok (exprN [varN "age", opN OP_GT ">",
          Node.mk NUMBER_LITERAL_NODE (some "18") [], opN OP_AND "&&",
          exprN [varN "role", opN OP_EQUALS "==",
            Node.mk STRING_LITERAL_NODE (some "admin") [], opN OP_OR "||",
            varN "role", opN OP_EQUALS "==",
            Node.mk STRING_LITERAL_NODE (some "moderator") []]]) := by
  exact ⟨rfl, rfl⟩

/-! ## The lexer (`src/lexer/lexer.go`)

The Go lexer walks the *bytes* of the source string
(`rune(l.rawText[l.crrPos])` reads one byte and widens it to a rune) and
re-encodes every byte through `strings.Builder.WriteRune`.  A Go string
is a byte string; we model it as a Lean `String` whose UTF-8 encoding
(`goStringBytes`) is the Go byte content, and the lexer operates on that
byte list.  Each consumed byte `b` becomes the *rune* (code point) `b` in
the builder — which is exactly `String.push` of `Char.ofNat b` — so a
byte ≥ 0x80 is re-encoded as a two-byte sequence, mangling non-ASCII
input (see the C7 theorems). -/

/-- UTF-8 encoding of a single character, as a byte list. -/
def utf8EncodeCharNat (c : Char) : List Nat :=
  let n := c.toNat
  if n < 0x80 then [n]
  else if n < 0x800 then
    [0xC0 + n / 0x40, 0x80 + n % 0x40]
  else if n < 0x10000 then
    [0xE0 + n / 0x1000, 0x80 + n / 0x40 % 0x40, 0x80 + n % 0x40]
  else
    [0xF0 + n / 0x40000, 0x80 + n / 0x1000 % 0x40, 0x80 + n / 0x40 % 0x40,
     0x80 + n % 0x40]

/-- The bytes of a Go string (the UTF-8 encoding of the Lean string). -/
def goStringBytes (s : String) : List Nat :=
  s.data.bind utf8EncodeCharNat

/-- Go's `unicode.IsSpace` restricted to the runes 0–255 that a single
byte can produce: `\t \n \v \f \r` (9–13), space (32), NEL (133) and
NBSP (160). -/
def goIsSpaceByte (b : Nat) : Bool :=
  b == 9 || b == 10 || b == 11 || b == 12 || b == 13 || b == 32
    || b == 133 || b == 160

/-- The reserved words of the lexer (`var keywords`). -/
def goKeywords : List String :=
  ["if", "elif", "else", "for", "in", "endif", "endfor"]

/-- The operator table of the lexer (`var Operators`), keyed by lexeme. -/
def goOperatorType (s : String) : Option TokenType :=
  if s = "&&" then some .AMPERSAND
  else if s = "||" then some .PIPE
  else if s = ">=" then some .GTE
  else if s = ">" then some .GT
  else if s = "<" then some .LT
  else if s = "<=" then some .LTE
  else if s = "==" then some .EQ
  else if s = "!=" then some .NEQ
  else if s = "??" then some .NULL_COALESCE
  else if s = "!" then some .BANG
  else if s = "(" then some .LPAREN
  else if s = ")" then some .RPAREN
  else if s = "[" then some .OPEN_BRACKET
  else if s = "]" then some .CLOSE_BRACKET
  else none

/-- The apostrophe character (string-literal delimiter), byte 39. -/
def quoteChar : Char := Char.ofNat 39

/-- `strings.Trim(s, "'")`: strip all leading and trailing apostrophes. -/
def goTrimQuotes (s : String) : String :=
  ⟨((s.data.dropWhile (· = quoteChar)).reverse.dropWhile (· = quoteChar)).reverse⟩

/-- Modelled from the spec: acceptance of `strconv.ParseFloat` (the Go
`isNumber` calls it), restricted to the shapes the spec names — a
"decimal literal, integer or fractional" with an optional sign; the
exponent / hex / inf forms that `ParseFloat` also accepts are outside
this model and outside every lexeme this development constructs. -/
def goIsNumber (s : String) : Bool :=
  let body :=
    match s.data with
    | c :: rest => if c = '+' ∨ c = '-' then rest else c :: rest
    | [] => []
  let intPart := body.takeWhile (· ≠ '.')
  let rest := body.dropWhile (· ≠ '.')
  match rest with
  | [] => !intPart.isEmpty && intPart.all Char.isDigit
  | _ :: frac =>
    intPart.all Char.isDigit && frac.all Char.isDigit
      && frac.all (· ≠ '.') && (!intPart.isEmpty || !frac.isEmpty)

/-- `isString` from the lexer: has an apostrophe as both prefix and
suffix. -/
def goIsString (s : String) : Bool :=
  (match s.data.head? with
   | some c => c = quoteChar
   | none => false)
  && (match s.data.getLast? with
      | some c => c = quoteChar
      | none => false)

/-- `addToken` from the lexer: classify an accumulated lexeme as keyword,
number, string (quotes stripped) or identifier; the empty lexeme emits
nothing. -/
def addTokenClassify (text : String) : Option Token :=
  if text = "" then none
  else if goKeywords.contains text then some ⟨text, .KEYWORD⟩
  else if goIsNumber text then some ⟨text, .NUMBER⟩
  else if goIsString text then some ⟨goTrimQuotes text, .STRING⟩
  else some ⟨text, .IDENTIFIER⟩

/-- The string-literal inner loop of `Tokenize` (TAG mode, after an
opening apostrophe has been pushed onto the builder): consume bytes into
the builder until the closing apostrophe, then emit a `STRING` token with
surrounding apostrophes trimmed; if input ends first, the builder keeps
the partial lexeme and no token is emitted. -/
def strLitLoop (sb : String) : List Nat → String × Option Token × List Nat
  | [] => (sb, none, [])
  | b :: rest =>
    let sb' := sb.push (Char.ofNat b)
    if b = 39 then ("", some ⟨goTrimQuotes sb', .STRING⟩, rest)
    else strLitLoop sb' rest

/-- The remaining input of `strLitLoop` is no longer than its input. -/
theorem strLitLoop_rest_le (sb : String) (bs : List Nat) :
    (strLitLoop sb bs).2.2.length ≤ bs.length := by
  induction bs generalizing sb with
  | nil => simp [strLitLoop]
  | cons b rest ih =>
    simp only [strLitLoop]
    by_cases hb : b = 39
    · simp [hb]
    · simp only [if_neg hb]
      exact le_trans (ih _) (by simp)

mutual

/-- TEXT mode of `Tokenize` (`src/lexer/lexer.go`): accumulate bytes
until `{{`; then flush the accumulated text (if non-empty), emit
`OPEN_CURLY`, and switch to TAG mode.  At end of input, flush the
accumulated text.  The fuel argument stands for the Go scan loop; every
loop iteration consumes at least one byte, so the fuel
`bytes.length + 1` supplied by `Tokenize` is always sufficient and the
fuel-exhaustion arm is unreachable. -/
def lexText : Nat → String → List Token → List Nat → List Token
  | 0, _, acc, _ => acc
  | _ + 1, sb, acc, [] => if sb = "" then acc else acc ++ [⟨sb, .TEXT⟩]
  | fuel + 1, sb, acc, b :: rest =>
    if b = 123 ∧ rest.head? = some 123 then
      let acc1 := if sb = "" then acc else acc ++ [⟨sb, .TEXT⟩]
      lexTag fuel "" (acc1 ++ [⟨"\x7b\x7b", .OPEN_CURLY⟩]) rest.tail
    else
      lexText fuel (sb.push (Char.ofNat b)) acc rest

/-- TAG mode of `Tokenize`: in order of attempt — string literal,
whitespace (flush lexeme), `}}` (flush, emit `CLOSE_CURLY`, back to TEXT
mode), two-character operator, single-character operator, else
accumulate into the current lexeme.  At end of input the pending lexeme
is classified by `addTokenClassify`. -/
def lexTag : Nat → String → List Token → List Nat → List Token
  | 0, _, acc, _ => acc
  | _ + 1, sb, acc, [] => acc ++ (addTokenClassify sb).toList
  | fuel + 1, sb, acc, b :: rest =>
    if b = 39 then
      let res := strLitLoop (sb.push quoteChar) rest
      lexTag fuel res.1 (acc ++ res.2.1.toList) res.2.2
    else if goIsSpaceByte b then
      lexTag fuel "" (acc ++ (addTokenClassify sb).toList) rest
    else if b = 125 ∧ rest.head? = some 125 then
      lexText fuel "" ((acc ++ (addTokenClassify sb).toList)
        ++ [⟨"\x7d\x7d", .CLOSE_CURLY⟩]) rest.tail
    else
      match rest.head? with
      | some b2 =>
        let two := String.mk [Char.ofNat b, Char.ofNat b2]
        match goOperatorType two with
        | some tt =>
          lexTag fuel "" ((acc ++ (addTokenClassify sb).toList) ++ [⟨two, tt⟩]) rest.tail
        | none =>
          let one := String.mk [Char.ofNat b]
          match goOperatorType one with
          | some tt =>
            lexTag fuel "" ((acc ++ (addTokenClassify sb).toList) ++ [⟨one, tt⟩]) rest
          | none => lexTag fuel (sb.push (Char.ofNat b)) acc rest
      | none =>
        let one := String.mk [Char.ofNat b]
        match goOperatorType one with
        | some tt =>
          lexTag fuel "" ((acc ++ (addTokenClassify sb).toList) ++ [⟨one, tt⟩]) rest
        | none => lexTag fuel (sb.push (Char.ofNat b)) acc rest

end

/-- `Tokenize` from `src/lexer/lexer.go`: run the two-mode byte scanner
over the bytes of the source, starting in TEXT mode. -/
def Tokenize (src : String) : List Token :=
  lexText ((goStringBytes src).length + 1) "" [] (goStringBytes src)

/-! ## The parser (`src/parser/parser.go`, first revision in the file)

The Go parser holds the token slice and a cursor (`crrPos`); we model it
as functions over the token list and a position, with an explicit fuel
argument standing for the Go loops (every theorem below exercises runs
whose fuel is plainly sufficient; fuel exhaustion models the one real
divergence of the Go code, `parseVar` looping forever on an unterminated
tag). -/

/-- `peek`: the token at `pos`, or the `{Type: -1, Value: "EOF"}`
pseudo-token past the end. -/
def peekTok (ts : List Token) (pos : Nat) : Token :=
  (ts[pos]?).getD ⟨"EOF", .EOF⟩

/-- `check`: the current token exists and has the given kind. -/
def checkTok (ts : List Token) (pos : Nat) (t : TokenType) : Bool :=
  pos < ts.length && (peekTok ts pos).type = t

/-- `checkNext`: the next token exists and has the given kind. -/
def checkNextTok (ts : List Token) (pos : Nat) (t : TokenType) : Bool :=
  pos + 1 < ts.length && (peekTok ts (pos + 1)).type = t

/-- The lexeme of the token at `pos`. -/
def tokValueAt (ts : List Token) (pos : Nat) : String :=
  (peekTok ts pos).value

/-- `isElifKeyword`. -/
def isElifKw (ts : List Token) (pos : Nat) : Bool :=
  checkTok ts pos .OPEN_CURLY && checkNextTok ts pos .KEYWORD
    && tokValueAt ts (pos + 1) = "elif"

/-- `isElseKeyword`. -/
def isElseKw (ts : List Token) (pos : Nat) : Bool :=
  checkTok ts pos .OPEN_CURLY && checkNextTok ts pos .KEYWORD
    && tokValueAt ts (pos + 1) = "else"

/-- `isEndIfKeyword`. -/
def isEndIfKw (ts : List Token) (pos : Nat) : Bool :=
  checkTok ts pos .OPEN_CURLY && checkNextTok ts pos .KEYWORD
    && tokValueAt ts (pos + 1) = "endif"

/-- `isEndForKeyword`. -/
def isEndForKw (ts : List Token) (pos : Nat) : Bool :=
  checkTok ts pos .OPEN_CURLY && checkNextTok ts pos .KEYWORD
    && tokValueAt ts (pos + 1) = "endfor"

/-- `isBlockEnd`. -/
def isBlockEndTok (ts : List Token) (pos : Nat) : Bool :=
  isElseKw ts pos || isElifKw ts pos || isEndIfKw ts pos || isEndForKw ts pos

/-- The operator `switch` inside `parseVar`: only the eight binary
operators produce expression nodes; `!`, `??`, parentheses and brackets
are matched by the surrounding `Operators` lookup but fall through the
`switch` and are silently dropped by this parser revision. -/
def opNodeOfLexerOp (op : TokenType) (lex : String) : Option Node :=
  match op with
  | .AMPERSAND => some (opN OP_AND lex)
  | .PIPE => some (opN OP_OR lex)
  | .EQ => some (opN OP_EQUALS lex)
  | .NEQ => some (opN OP_NOT_EQUALS lex)
  | .GT => some (opN OP_GT lex)
  | .LT => some (opN OP_LT lex)
  | .GTE => some (opN OP_GTE lex)
  | .LTE => some (opN OP_LTE lex)
  | _ => none

/-- The operand `switch` inside `parseVar`: STRING (trimmed again),
NUMBER and IDENTIFIER tokens become literal/variable nodes; any other
token kind is dropped. -/
def litNodeOfToken (t : Token) : Option Node :=
  match t.type with
  | .STRING => some (.mk STRING_LITERAL_NODE (some (goTrimQuotes t.value)) [])
  | .NUMBER => some (.mk NUMBER_LITERAL_NODE (some t.value) [])
  | .IDENTIFIER => some (varN t.value)
  | _ => none

/-- The expression loop of `parseVar` (after the leading identifier):
collect nodes until `}}`.  When the input is exhausted the Go loop never
terminates (`advance` stops moving and `previous` repeats the final
token); the fuel models that divergence. -/
def parseVarLoop (ts : List Token) : Nat → Nat → List Node →
    Except String (Node × Nat)
  | 0, _, _ => .error "out of fuel"
  | fuel + 1, pos, acc =>
    if checkTok ts pos .CLOSE_CURLY then .ok (exprN acc, pos + 1)
    else
      let cur := peekTok ts pos
      match goOperatorType cur.value with
      | some op =>
        parseVarLoop ts fuel (pos + 1) (acc ++ (opNodeOfLexerOp op cur.value).toList)
      | none =>
        if pos ≥ ts.length then parseVarLoop ts fuel pos acc
        else parseVarLoop ts fuel (pos + 1) (acc ++ (litNodeOfToken cur).toList)

/-- `parseVar`: a lone identifier before `}}` yields a bare
`VARIABLE_NODE`; otherwise the expression loop collects the tag's nodes
into an `EXPRESSION_NODE`. -/
def parseVarFn (ts : List Token) (fuel pos : Nat) (identifier : String) :
    Except String (Node × Nat) :=
  if checkTok ts pos .CLOSE_CURLY then .ok (varN identifier, pos + 1)
  else parseVarLoop ts fuel pos [varN identifier]

/-- `NewIfNode` from `src/parser/parser.go`: the condition is the node's
payload; `THEN_BRANCH` is always present, `ELIF_BRANCH` and
`ELSE_BRANCH` only when non-empty. -/
def mkIfNodeGo (condition : String) (thenBlock elifNodes elseBlock : List Node) :
    Node :=
  .mk IF_NODE (some condition)
    ([Node.mk THEN_BRANCH none thenBlock]
      ++ (if elifNodes.isEmpty then [] else [Node.mk ELIF_BRANCH none elifNodes])
      ++ (if elseBlock.isEmpty then [] else [Node.mk ELSE_BRANCH none elseBlock]))

mutual

/-- The loop of `Parse`: at top level, `TEXT` tokens, `{{ if`-blocks,
`{{ for`-blocks and `{{ identifier`-tags; a bare block closer is an
error. -/
def parseLoop (ts : List Token) : Nat → Nat → List Node →
    Except String (List Node)
  | 0, _, _ => .error "out of fuel"
  | fuel + 1, pos, acc =>
    if pos ≥ ts.length then .ok acc
    else if isBlockEndTok ts pos then
      .error "malformed tokens. \x27else\x27 or \x27endif\x27 cannot be used without \x27if\x27"
    else if checkTok ts pos .TEXT then
      parseLoop ts fuel (pos + 1) (acc ++ [textN (tokValueAt ts pos)])
    else if checkTok ts pos .OPEN_CURLY then
      if checkTok ts (pos + 1) .KEYWORD then
        if tokValueAt ts (pos + 1) = "if" then
          match parseIfFn ts fuel (pos + 2) with
          | .error e => .error ("error parsing if statement: " ++ e)
          | .ok (node, pos') => parseLoop ts fuel pos' (acc ++ [node])
        else if tokValueAt ts (pos + 1) = "for" then
          match parseForFn ts fuel (pos + 2) with
          | .error e => .error ("error parsing for statement: " ++ e)
          | .ok (node, pos') => parseLoop ts fuel pos' (acc ++ [node])
        else .error "runtime panic: Unknown KEYWORD"
      else if checkTok ts (pos + 1) .IDENTIFIER then
        match parseVarFn ts fuel (pos + 2) (tokValueAt ts (pos + 1)) with
        | .error e => .error ("error parsing variable statement: " ++ e)
        | .ok (node, pos') => parseLoop ts fuel pos' (acc ++ [node])
      else .error ("unexpected token after \x27\x7b\x7b\x27: " ++ tokValueAt ts (pos + 1))
    else
      .error ("unrecognized token: " ++ tokValueAt ts pos
        ++ ", they should start with -> \x27\x7b\x7b\x27")

/-- `parseBlock`: like the top-level loop but stops (without consuming)
at a block-end sentinel, and a `{{ identifier` inside a block becomes a
bare `VARIABLE_NODE` whose closing `}}` is consumed unchecked. -/
def parseBlockFn (ts : List Token) : Nat → Nat → List Node →
    Except String (List Node × Nat)
  | 0, _, _ => .error "out of fuel"
  | fuel + 1, pos, acc =>
    if pos ≥ ts.length ∨ isBlockEndTok ts pos then .ok (acc, pos)
    else if checkTok ts pos .TEXT then
      parseBlockFn ts fuel (pos + 1) (acc ++ [textN (tokValueAt ts pos)])
    else if checkTok ts pos .OPEN_CURLY then
      if checkTok ts (pos + 1) .KEYWORD then
        if tokValueAt ts (pos + 1) = "if" then
          match parseIfFn ts fuel (pos + 2) with
          | .error e => .error ("error parsing nested if statement: " ++ e)
          | .ok (node, pos') => parseBlockFn ts fuel pos' (acc ++ [node])
        else if tokValueAt ts (pos + 1) = "for" then
          match parseForFn ts fuel (pos + 2) with
          | .error e => .error ("error parsing nested for statement: " ++ e)
          | .ok (node, pos') => parseBlockFn ts fuel pos' (acc ++ [node])
        else .error "runtime panic: Unknown KEYWORD"
      else if checkTok ts (pos + 1) .IDENTIFIER then
        let pos' := if pos + 2 ≥ ts.length then pos + 2 else pos + 3
        parseBlockFn ts fuel pos' (acc ++ [varN (tokValueAt ts (pos + 1))])
      else .error ("unexpected token after \x27\x7b\x7b\x27: " ++ tokValueAt ts (pos + 1))
    else .error ("unexpected token: " ++ tokValueAt ts pos)

/-- `parseIf` (the cursor starts right after `{{ if`): condition
identifier, `}}`, then-block, elif items, optional else block,
`{{ endif }}`. -/
def parseIfFn (ts : List Token) : Nat → Nat → Except String (Node × Nat)
  | 0, _ => .error "out of fuel"
  | fuel + 1, pos =>
    if !(checkTok ts pos .IDENTIFIER) then
      .error ("expected condition after \x27if\x27, got " ++ tokValueAt ts pos)
    else if !(checkTok ts (pos + 1) .CLOSE_CURLY) then
      .error ("expected \x27\x7d\x7d\x27, got " ++ tokValueAt ts (pos + 1))
    else
      match parseBlockFn ts fuel (pos + 2) [] with
      | .error e => .error ("error parsing then block: " ++ e)
      | .ok (thenBlock, pos1) =>
        match parseElifLoop ts fuel pos1 [] with
        | .error e => .error e
        | .ok (elifNodes, pos2) =>
          let elseStep : Except String (List Node × Nat) :=
            if isElseKw ts pos2 then
              match parseElseFn ts fuel pos2 with
              | .error e => .error ("error parsing else block: " ++ e)
              | .ok (elseBlock, pos3) => .ok (elseBlock, pos3)
            else .ok ([], pos2)
          match elseStep with
          | .error e => .error e
          | .ok (elseBlock, pos3) =>
            if !(isEndIfKw ts pos3) then
              .error ("expected \x27\x7b\x7b endif \x7d\x7d\x27 to close if statement, got: "
                ++ tokValueAt ts pos3)
            else if !(checkTok ts (pos3 + 2) .CLOSE_CURLY) then
              .error ("expected \x27\x7d\x7d\x27, got " ++ tokValueAt ts (pos3 + 2))
            else
              .ok (mkIfNodeGo (tokValueAt ts pos) thenBlock elifNodes elseBlock,
                pos3 + 3)

/-- The `for p.isElifKeyword()` loop of `parseIf`. -/
def parseElifLoop (ts : List Token) : Nat → Nat → List Node →
    Except String (List Node × Nat)
  | 0, _, _ => .error "out of fuel"
  | fuel + 1, pos, acc =>
    if isElifKw ts pos then
      match parseElifFn ts fuel pos with
      | .error e => .error ("error parsing elif block: " ++ e)
      | .ok (node, pos') => parseElifLoop ts fuel pos' (acc ++ [node])
    else .ok (acc, pos)

/-- `parseElif` (cursor at the `{{` of `{{ elif`): skip `{{ elif`,
condition identifier, `}}`, body; yields an `ELIF_ITEM` whose payload is
the condition and whose children are the body (this parser revision
stores the condition in the payload, not as a child). -/
def parseElifFn (ts : List Token) : Nat → Nat → Except String (Node × Nat)
  | 0, _ => .error "out of fuel"
  | fuel + 1, pos =>
    if !(checkTok ts (pos + 2) .IDENTIFIER) then
      .error ("expected condition after \x27if\x27, got " ++ tokValueAt ts (pos + 2))
    else if !(checkTok ts (pos + 3) .CLOSE_CURLY) then
      .error ("expected \x27\x7d\x7d\x27, got " ++ tokValueAt ts (pos + 3))
    else
      match parseBlockFn ts fuel (pos + 4) [] with
      | .error e => .error ("error parsing elif block: " ++ e)
      | .ok (block, pos') =>
        .ok (Node.mk ELIF_ITEM (some (tokValueAt ts (pos + 2))) block, pos')

/-- `parseElse` (cursor at the `{{` of `{{ else }}`): skip `{{ else`,
`}}`, body. -/
def parseElseFn (ts : List Token) : Nat → Nat → Except String (List Node × Nat)
  | 0, _ => .error "out of fuel"
  | fuel + 1, pos =>
    if !(checkTok ts (pos + 2) .CLOSE_CURLY) then
      .error ("expected \x27\x7d\x7d\x27, got " ++ tokValueAt ts (pos + 2))
    else parseBlockFn ts fuel (pos + 3) []

/-- `parseFor` (cursor right after `{{ for`): iteratee identifier, `in`,
iterator identifier, `}}`, body, `{{ endfor }}`.  (As in the Go code, a
missing `in` keyword is silently tolerated when the next token is not a
`KEYWORD` at all.) -/
def parseForFn (ts : List Token) : Nat → Nat → Except String (Node × Nat)
  | 0, _ => .error "out of fuel"
  | fuel + 1, pos =>
    if !(checkTok ts pos .IDENTIFIER) then
      .error ("expected iteratee after \x27for\x27, got " ++ tokValueAt ts pos)
    else
      let inStep : Except String Nat :=
        if checkTok ts (pos + 1) .KEYWORD then
          if tokValueAt ts (pos + 1) = "in" then .ok (pos + 2)
          else .error ("expected \x27in\x27, got " ++ tokValueAt ts (pos + 2))
        else .ok (pos + 1)
      match inStep with
      | .error e => .error e
      | .ok pos1 =>
        if !(checkTok ts pos1 .IDENTIFIER) then
          .error ("expected iterator after \x27in\x27, got " ++ tokValueAt ts pos1)
        else if !(checkTok ts (pos1 + 1) .CLOSE_CURLY) then
          .error ("expected \x27\x7d\x7d\x27, got " ++ tokValueAt ts (pos1 + 1))
        else
          match parseBlockFn ts fuel (pos1 + 2) [] with
          | .error e => .error ("error parsing for body: " ++ e)
          | .ok (body, pos2) =>
            if !(isEndForKw ts pos2) then
              .error ("expected \x27\x7b\x7b endfor \x7d\x7d\x27 to close for statement, got: "
                ++ tokValueAt ts pos2)
            else if !(checkTok ts (pos2 + 2) .CLOSE_CURLY) then
              .error ("expected \x27\x7d\x7d\x27, got " ++ tokValueAt ts (pos2 + 2))
            else
              .ok (Node.mk FOR_NODE none
                [Node.mk ITERATEE_ITEM (some (tokValueAt ts pos)) [],
                 Node.mk ITERATOR_ITEM (some (tokValueAt ts pos1)) [],
                 Node.mk FOR_BODY none body], pos2 + 3)

end

/-- `Parse` from `src/parser/parser.go`: run the top-level loop from
position 0.  The fuel `ts.length + 1` bounds the loop steps; every run
this development reasons about finishes well within it. -/
def Parse (ts : List Token) : Except String (List Node) :=
  parseLoop ts (ts.length + 1) 0 []

/-- The convenience pipeline (`render_template` in the spec's interface,
`main.go`'s usage): tokenize, parse, render with the given context,
returning only the rendered string or the first error. -/
def renderTemplate (src : String) (ctx : Ctx) : Except GoError String :=
  match Parse (Tokenize src) with
  | .error e => .error (.plain e)
  | .ok ast => (renderNodes ctx ast).1

/-! ## C7: round-trip of literal text -/

/-- No two consecutive `{` characters (byte 123) occur in the list —
the claim's "contains no occurrence of `{{`". -/
def noDoubleOpenBrace : List Char → Bool
  | c1 :: c2 :: rest =>
    !(c1 = Char.ofNat 123 && c2 = Char.ofNat 123) && noDoubleOpenBrace (c2 :: rest)
  | _ => true

/-- An ASCII character encodes to the single byte of its code point. -/
theorem utf8EncodeCharNat_ascii (c : Char) (h : c.toNat < 128) :
    utf8EncodeCharNat c = [c.toNat] := by
  simp [utf8EncodeCharNat, h]

/-- The bytes of an all-ASCII character list are its code points. -/
theorem bind_utf8_ascii (cs : List Char) (h : ∀ c ∈ cs, c.toNat < 128) :
    cs.bind utf8EncodeCharNat = cs.map Char.toNat := by
  induction cs with
  | nil => simp
  | cons c rest ih =>
    simp [utf8EncodeCharNat_ascii c (h c (by simp)),
      ih (fun x hx => h x (by simp [hx]))]

/-- The bytes of an all-ASCII string are its code points. -/
theorem goStringBytes_ascii (s : String) (h : ∀ c ∈ s.data, c.toNat < 128) :
    goStringBytes s = s.data.map Char.toNat := by
  unfold goStringBytes
  exact bind_utf8_ascii s.data h

/-- TEXT mode on all-ASCII input with no `{{`: the scanner stays in TEXT
mode and accumulates every byte back into (the continuation of) the
pending text lexeme, flushing one `TEXT` token at the end. -/
theorem lexText_ascii (cs : List Char) (sb : String) (acc : List Token)
    (hascii : ∀ c ∈ cs, c.toNat < 128)
    (hnb : noDoubleOpenBrace cs = true) :
    lexText (cs.length + 1) sb acc (cs.map Char.toNat)
      = if sb.data ++ cs = [] then acc
        else acc ++ [⟨⟨sb.data ++ cs⟩, .TEXT⟩] := by
  induction cs generalizing sb acc with
  | nil =>
    obtain ⟨l⟩ := sb
    have h0 : ("" : String) = ⟨[]⟩ := rfl
    by_cases h : l = []
    · simp [lexText, h, h0]
    · simp [lexText, h, h0, String.ext_iff]
  | cons c rest ih =>
    have htailascii : ∀ x ∈ rest, x.toNat < 128 :=
      fun x hx => hascii x (List.mem_cons_of_mem _ hx)
    have htailnb : noDoubleOpenBrace rest = true := by
      cases rest with
      | nil => rfl
      | cons c2 r2 =>
        simp only [noDoubleOpenBrace, Bool.and_eq_true] at hnb
        exact hnb.2
    have hcond : ¬(c.toNat = 123 ∧ (rest.map Char.toNat).head? = some 123) := by
      cases rest with
      | nil => simp
      | cons c2 r2 =>
        simp only [List.map_cons, List.head?_cons, Option.some.injEq]
        rintro ⟨h1, h2⟩
        have e1 : c = Char.ofNat 123 := by rw [← Char.ofNat_toNat c, h1]
        have e2 : c2 = Char.ofNat 123 := by rw [← Char.ofNat_toNat c2, h2]
        simp [noDoubleOpenBrace, e1, e2] at hnb
    simp only [List.map_cons, List.length_cons, lexText, if_neg hcond,
      Char.ofNat_toNat]
    rw [ih (sb.push c) acc htailascii htailnb]
    simp [String.data_push]

/-- Parsing a single `TEXT` token yields a single `TEXT_NODE` (the
parser and lexer are fuel-structural, so this is definitional). -/
theorem parse_single_text (s : String) :
    Parse [⟨s, .TEXT⟩] = .ok [textN s] := rfl

/-- Rendering a single text node emits its payload and leaves the
context unchanged. -/
theorem renderNodes_single_text (ctx : Ctx) (s : String) :
    renderNodes ctx [textN s] = (.ok s, ctx) := by
  simp [renderNodes, renderNode, textN, Node.type, Node.value]

/-- **C7** (refuted as stated, byte-for-byte): the two-byte UTF-8 source
`"é"` contains no `{{`, yet rendering it with the empty context yields
`"Ã©"` — the lexer reads the source byte by byte
(`rune(l.rawText[l.crrPos])`) and re-encodes each byte as a rune through
`WriteRune`, so each byte ≥ 0x80 becomes a two-byte sequence. -/
theorem literal_roundtrip_fails_on_non_ascii :
    renderTemplate "é" [] = .ok "Ã©" ∧ ("Ã©" : String) ≠ "é" := by
  constructor
  · have hp : Parse (Tokenize "é") = .ok [textN "Ã©"] := rfl
    simp [renderTemplate, hp, renderNodes_single_text]
  · decide

/-- **C7 (amended)** Round-trip of literal text for ASCII sources: for
every source string whose characters are ASCII (so its Go bytes are its
code points) and which contains no occurrence of `{{`, rendering with
the empty context succeeds and returns the source unchanged. -/
theorem ascii_literal_roundtrip (s : String)
    (hascii : ∀ c ∈ s.data, c.toNat < 128)
    (hnb : noDoubleOpenBrace s.data = true) :
    renderTemplate s [] = .ok s := by
  have hdata : (⟨s.data⟩ : String) = s := rfl
  have htok : Tokenize s
      = if s.data = [] then ([] : List Token) else [⟨s, .TEXT⟩] := by
    rw [Tokenize, goStringBytes_ascii s hascii, List.length_map,
      lexText_ascii s.data "" [] hascii hnb]
    by_cases h : s.data = []
    · simp [h]
    · simp [h, hdata]
  by_cases h : s.data = []
  · have hs : s = "" := by
      obtain ⟨l⟩ := s
      simp only at h
      simp [h]
    have hp : Parse (Tokenize "") = .ok [] := rfl
    rw [hs]
    simp [renderTemplate, hp, renderNodes]
  · rw [renderTemplate, htok]
    simp only [h, if_false, parse_single_text]
    show (renderNodes ([] : Ctx) [textN s]).1 = .ok s
    rw [renderNodes_single_text]

/-- Witness for C7 (amended): the ASCII source `"Hello {world}!"`
(single braces, no `{{`) round-trips unchanged, by applying
`ascii_literal_roundtrip` at that concrete source. -/
theorem ascii_literal_roundtrip_witness :
    (∀ c ∈ ("Hello \x7bworld\x7d!" : String).data, c.toNat < 128)
    ∧ noDoubleOpenBrace ("Hello \x7bworld\x7d!" : String).data = true
    ∧ renderTemplate "Hello \x7bworld\x7d!" [] = .ok "Hello \x7bworld\x7d!" :=
  ⟨by decide, by decide, ascii_literal_roundtrip _ (by decide) (by decide)⟩

end Zencefil
